/-
Verification of the asynchronous task-polling core of pulp-smash.

The development embeds the task-waiting code of the repository:
  pulp_smash/helper.py                  (module-level wait_for_tasks and its per-task loop)
  pulp_smash/resources/helper.py        (the duplicate of the same two functions, together
                                         with the state vocabulary and path table)
  pulp_smash/resources/platform/api_v2/api.py  (class Task, a second duplicate)
  pulp_smash/constants.py               (the names the first module tries to import)

Modelling conventions.
  Wall-clock time is modelled by integers: the source manipulates real-valued
  seconds only through addition and an order comparison, so the claims under
  study are invariant under the choice of an ordered carrier.  The only
  passage of time is the sleep at the top of each loop iteration; the HTTP
  round trip is instantaneous in the model.
  The remote server is a function from URL and time to an HTTP response,
  where a response carries a status code and the parsed JSON state field.
  Exceptions raised by the Python code (HTTPError from raise_for_status,
  KeyError from a missing dictionary key) are modelled with Except.
  The polling while-loop runs on explicit fuel; the fuel chosen in
  wait_for_task is exactly the number of iterations the source performs when
  frequency is positive, and every fuel-exhaustion exit coincides with the
  loop condition turning false, returning the Python value None, modelled as
  Except.ok none.
-/
import Mathlib

instance {ε α : Type} [DecidableEq ε] [DecidableEq α] : DecidableEq (Except ε α) := fun a b =>
  match a, b with
  | .ok x, .ok y =>
    if h : x = y then isTrue (by rw [h]) else isFalse (by intro hc; cases hc; exact h rfl)
  | .error x, .error y =>
    if h : x = y then isTrue (by rw [h]) else isFalse (by intro hc; cases hc; exact h rfl)
  | .ok _, .error _ => isFalse (by intro hc; cases hc)
  | .error _, .ok _ => isFalse (by intro hc; cases hc)

namespace PulpSmash

/-- Snapshot of one HTTP response to a task-status poll: the status code and
the state field of the parsed JSON body. -/
structure HttpResponse where
  status_code : ℕ
  state : String
deriving DecidableEq

/-- The remote server, as observed by the client: what a GET of a given URL
returns at a given instant. -/
def Server : Type := String → ℤ → HttpResponse

/-- One task descriptor taken from the spawned_tasks list of a call report.
The source reads only the task_id field. -/
structure PyTask where
  task_id : String
deriving DecidableEq

/-- The configuration object; the polling code reads only base_url from it
(the authentication kwargs do not affect the modelled response). -/
structure Cfg where
  base_url : String
deriving DecidableEq

/-- Record of one GET request issued while polling: target URL and the time
at which it was issued. -/
structure PollRecord where
  url : String
  time : ℤ
deriving DecidableEq

/-- Exceptions the embedded code can raise: HTTPError from
raise_for_status, KeyError from a missing dictionary key. -/
inductive PyError where
  | httpError (status_code : ℕ)
  | keyError (key : String)
deriving DecidableEq

/-- The task path, as in the paths table of resources/helper.py and the
POLL_TASK_PATH of api.py.  Module pulp_smash/helper.py intends to import a
constant of this name from pulp_smash/constants.py, where it is absent; see
the import-resolution development below. -/
def TASK_PATH : String := "/pulp/api/v2/tasks/"

/-- Error states of a task, from the task_states table of
resources/helper.py, identical to TASK_ERROR_STATES of api.py. -/
def TASK_ERROR_STATES : List String := ["error", "timed out"]

/-- Success states of a task, from the task_states table of
resources/helper.py, identical to TASK_SUCCESS_STATES of api.py. -/
def TASK_SUCCESS_STATES : List String := ["finished"]

/-- Running states of a task, from the task_states table of
resources/helper.py, identical to TASK_RUNNING_STATES of api.py. -/
def TASK_RUNNING_STATES : List String := ["running", "suspended", "waiting"]

/-- CALL_REPORT_KEYS of pulp_smash/constants.py. -/
def CALL_REPORT_KEYS : List String := ["error", "result", "spawned_tasks"]

/-- Behaviour of response.raise_for_status of the requests library: it
raises HTTPError exactly for client-error and server-error status codes,
those in the interval from 400 to 599. -/
def raisesForStatus (status_code : ℕ) : Bool :=
  400 ≤ status_code && status_code < 600

/-- Result of running the polling while-loop: the value produced (an
exception, or the Python return value, where none is the implicit None of
falling off the loop), the clock at exit, and the GET requests issued. -/
structure LoopOutcome where
  result : Except PyError (Option HttpResponse)
  clock : ℤ
  requests : List PollRecord
deriving DecidableEq

/-- The polling while-loop shared by the three copies of the per-task wait
function.  While the current time has not passed task_timeout: sleep one
frequency interval, GET the task URL, raise on a 4xx or 5xx status, and
return the response if its state is in the union of the error and success
state sets; otherwise iterate.  Falling off the loop (condition false, or
the fuel, chosen to equal the iteration count, exhausted) yields None. -/
def pollLoop (server : Server) (url : String) (task_timeout frequency : ℤ) :
    ℕ → ℤ → LoopOutcome
  | 0, now => ⟨.ok none, now, []⟩
  | fuel + 1, now =>
    if now ≤ task_timeout then
      let now2 := now + frequency
      let resp := server url now2
      if raisesForStatus resp.status_code then
        ⟨.error (.httpError resp.status_code), now2, [⟨url, now2⟩]⟩
      else if (TASK_ERROR_STATES ++ TASK_SUCCESS_STATES).contains resp.state then
        ⟨.ok (some resp), now2, [⟨url, now2⟩]⟩
      else
        let o := pollLoop server url task_timeout frequency fuel now2
        ⟨o.result, o.clock, ⟨url, now2⟩ :: o.requests⟩
    else
      ⟨.ok none, now, []⟩

/-- Number of iterations the source loop performs for a given timeout and a
positive frequency: iteration k runs under the condition that k times
frequency is at most timeout, so the count is the floor of their quotient
plus one.  For a negative timeout the loop body never runs and any positive
fuel gives the same outcome. -/
def wait_fuel (timeout frequency : ℤ) : ℕ := (timeout / frequency).toNat + 1

/-- Everything observable about one call of the per-task wait function: the
value it produces, the clock at entry (start), the deadline local variable
task_timeout, the clock at exit, and the GET requests issued. -/
structure PollFnOutcome where
  result : Except PyError (Option HttpResponse)
  start : ℤ
  task_timeout : ℤ
  clock : ℤ
  requests : List PollRecord
deriving DecidableEq

/-- The per-task wait function of pulp_smash/helper.py and of
resources/helper.py (their bodies are identical; the state sets and task
path are the values defined in resources/helper.py, which are the values
the first module means to import).  It computes the deadline
task_timeout as the entry clock plus the timeout, builds the task URL from
base_url, the task path and the task id, and runs the polling loop. -/
def wait_for_task (task : PyTask) (cfg : Cfg) (timeout frequency : ℤ)
    (server : Server) (t0 : ℤ) : PollFnOutcome :=
  let url := cfg.base_url ++ (TASK_PATH ++ (task.task_id ++ "/"))
  let task_timeout := t0 + timeout
  let o := pollLoop server url task_timeout frequency (wait_fuel timeout frequency) t0
  ⟨o.result, t0, task_timeout, o.clock, o.requests⟩

/-- The JSON body of a call report response: the set of top-level keys of
the JSON object, and the value stored under spawned_tasks (meaningful when
that key is present). -/
structure ReportJson where
  keys : List String
  spawned_tasks : List PyTask
deriving DecidableEq

/-- Everything observable about one call of the orchestrator: the value it
produces (for the helper modules, the responses list it returns), the clock
at exit, all GET requests issued, and the per-task outcomes in order. -/
structure WaitOutcome where
  result : Except PyError (List (Option HttpResponse))
  clock : ℤ
  requests : List PollRecord
  perTask : List PollFnOutcome
deriving DecidableEq

/-- The loop of wait_for_tasks: poll each spawned task in order, appending
each result to the responses list; an exception raised while polling one
task propagates at once, so later tasks are not polled.  The perTask field
is instrumentation recording the outcome of each per-task call. -/
def waitTasksAux (cfg : Cfg) (timeout frequency : ℤ) (server : Server) :
    List PyTask → ℤ → WaitOutcome
  | [], t0 => ⟨.ok [], t0, [], []⟩
  | task :: rest, t0 =>
    let o := wait_for_task task cfg timeout frequency server t0
    match o.result with
    | .error e => ⟨.error e, o.clock, o.requests, [o]⟩
    | .ok r =>
      let w := waitTasksAux cfg timeout frequency server rest o.clock
      ⟨Except.map (fun rs => r :: rs) w.result, w.clock, o.requests ++ w.requests, o :: w.perTask⟩

/-- wait_for_tasks of pulp_smash/helper.py and of resources/helper.py:
read the spawned_tasks key of the report JSON (KeyError when absent; no
other key is consulted, the commented-out key check in the source is dead),
poll each task in order and return the list of results. -/
def wait_for_tasks (report : ReportJson) (cfg : Cfg) (timeout frequency : ℤ)
    (server : Server) (t0 : ℤ) : WaitOutcome :=
  if report.keys.contains "spawned_tasks" then
    waitTasksAux cfg timeout frequency server report.spawned_tasks t0
  else
    ⟨.error (.keyError "spawned_tasks"), t0, [], []⟩

namespace Api

/-- POLL_TASK_PATH of api.py, applied to a task id as the source applies
format to it. -/
def POLL_TASK_PATH (task_id : String) : String := "/pulp/api/v2/tasks/" ++ (task_id ++ "/")

/-- TASK_ERROR_STATES of api.py. -/
def TASK_ERROR_STATES : List String := ["error", "timed out"]

/-- TASK_SUCCESS_STATES of api.py. -/
def TASK_SUCCESS_STATES : List String := ["finished"]

/-- TASK_RUNNING_STATES of api.py. -/
def TASK_RUNNING_STATES : List String := ["running", "suspended", "waiting"]

/-- The polling while-loop of Task private wait method in api.py, embedded
exactly as the loop of the helper modules but over the constants of
api.py. -/
def pollLoop (server : Server) (url : String) (task_timeout frequency : ℤ) :
    ℕ → ℤ → LoopOutcome
  | 0, now => ⟨.ok none, now, []⟩
  | fuel + 1, now =>
    if now ≤ task_timeout then
      let now2 := now + frequency
      let resp := server url now2
      if raisesForStatus resp.status_code then
        ⟨.error (.httpError resp.status_code), now2, [⟨url, now2⟩]⟩
      else if (TASK_ERROR_STATES ++ TASK_SUCCESS_STATES).contains resp.state then
        ⟨.ok (some resp), now2, [⟨url, now2⟩]⟩
      else
        let o := pollLoop server url task_timeout frequency fuel now2
        ⟨o.result, o.clock, ⟨url, now2⟩ :: o.requests⟩
    else
      ⟨.ok none, now, []⟩

/-- The per-task wait method of class Task in api.py.  The configuration
is the self.cfg field, passed here as a parameter. -/
def wait_for_task (task : PyTask) (cfg : Cfg) (timeout frequency : ℤ)
    (server : Server) (t0 : ℤ) : PollFnOutcome :=
  let url := cfg.base_url ++ POLL_TASK_PATH task.task_id
  let task_timeout := t0 + timeout
  let o := pollLoop server url task_timeout frequency (wait_fuel timeout frequency) t0
  ⟨o.result, t0, task_timeout, o.clock, o.requests⟩

/-- The loop of Task.wait_for_tasks of api.py, building the responses
list exactly as the helper modules do. -/
def waitTasksAux (cfg : Cfg) (timeout frequency : ℤ) (server : Server) :
    List PyTask → ℤ → WaitOutcome
  | [], t0 => ⟨.ok [], t0, [], []⟩
  | task :: rest, t0 =>
    let o := wait_for_task task cfg timeout frequency server t0
    match o.result with
    | .error e => ⟨.error e, o.clock, o.requests, [o]⟩
    | .ok r =>
      let w := waitTasksAux cfg timeout frequency server rest o.clock
      ⟨Except.map (fun rs => r :: rs) w.result, w.clock, o.requests ++ w.requests, o :: w.perTask⟩

/-- Task.wait_for_tasks of api.py.  The result field of the outcome is the
local responses list the body builds; the method body ends without a
return statement, so its Python return value is None, captured by
api_wait_return below. -/
def wait_for_tasks (report : ReportJson) (cfg : Cfg) (timeout frequency : ℤ)
    (server : Server) (t0 : ℤ) : WaitOutcome :=
  if report.keys.contains "spawned_tasks" then
    waitTasksAux cfg timeout frequency server report.spawned_tasks t0
  else
    ⟨.error (.keyError "spawned_tasks"), t0, [], []⟩

end Api

/-- A Python return value of the two orchestrators: the None of a
function body that falls off its end, or a list of per-task results. -/
inductive PyReturn where
  | pyNone
  | pyList (rs : List (Option HttpResponse))
deriving DecidableEq

/-- The Python value returned by wait_for_tasks of resources/helper.py:
its body ends in return responses, so the returned value is the responses
list (when no exception propagates). -/
def helper_wait_return (report : ReportJson) (cfg : Cfg) (timeout frequency : ℤ)
    (server : Server) (t0 : ℤ) : Except PyError PyReturn :=
  Except.map PyReturn.pyList (wait_for_tasks report cfg timeout frequency server t0).result

/-- The Python value returned by Task.wait_for_tasks of api.py: its body
builds the responses list but has no return statement, so the returned
value is None (when no exception propagates). -/
def api_wait_return (report : ReportJson) (cfg : Cfg) (timeout frequency : ℤ)
    (server : Server) (t0 : ℤ) : Except PyError PyReturn :=
  Except.map (fun _ => PyReturn.pyNone) (Api.wait_for_tasks report cfg timeout frequency server t0).result

/-- The module-level names bound by executing pulp_smash/constants.py. -/
def constants_module_names : List String :=
  ["CALL_REPORT_KEYS", "CONTENT_UPLOAD_PATH", "ERROR_KEYS", "GROUP_CALL_REPORT_KEYS",
   "LOGIN_KEYS", "LOGIN_PATH", "REPOSITORY_PATH", "USER_PATH"]

/-- The names pulp_smash/helper.py imports from pulp_smash.constants, in
source order of its three from-import statements. -/
def helper_constants_imports : List String :=
  ["TASK_PATH", "TASK_ERROR_STATES", "TASK_SUCCESS_STATES"]

/-- Python semantics of a sequence of from-import statements: the first
requested name not bound in the providing module raises ImportError,
identified here by that name; module initialization then fails. -/
def resolve_from_imports (defined imported : List String) : Except String Unit :=
  match imported.find? (fun n => !(defined.contains n)) with
  | some n => .error n
  | none => .ok ()

/-- Concrete configuration for evaluation. -/
def demoCfg : Cfg := ⟨"B"⟩

/-- Concrete task for evaluation. -/
def demoTask : PyTask := ⟨"abc"⟩

/-- A server that always reports a running task with status 200. -/
def runningServer : Server := fun _ _ => ⟨200, "running"⟩

/-- A server that always reports a finished task with status 200. -/
def finServer : Server := fun _ _ => ⟨200, "finished"⟩

/-- A server whose state field is outside the three known state sets. -/
def bogusServer : Server := fun _ _ => ⟨200, "bogus"⟩

/-- A server that always answers with status 304 Not Modified, a non-2xx
status outside the range raise_for_status treats as an error, and a
running state in the body. -/
def notModifiedServer : Server := fun _ _ => ⟨304, "running"⟩

/-- A well-formed concrete report with two spawned tasks. -/
def demoReport : ReportJson :=
  ⟨["error", "result", "spawned_tasks"], [⟨"a1"⟩, ⟨"b2"⟩]⟩

/-- A well-formed concrete report with no spawned tasks. -/
def emptyReport : ReportJson :=
  ⟨["error", "result", "spawned_tasks"], []⟩

/-- A concrete report whose JSON object lacks the error key but still
holds one spawned task. -/
def reportMissingErrorKey : ReportJson :=
  ⟨["result", "spawned_tasks"], [⟨"abc"⟩]⟩

/-- A well-formed concrete report holding the same single spawned task as
reportMissingErrorKey. -/
def reportAllKeysOneTask : ReportJson :=
  ⟨["error", "result", "spawned_tasks"], [⟨"abc"⟩]⟩

/-- A concrete report whose JSON object lacks the spawned_tasks key. -/
def reportNoSpawnedKey : ReportJson :=
  ⟨["error", "result"], []⟩

/-- A server that always answers with status 500 and a running state. -/
def err500Server : Server := fun _ _ => ⟨500, "running"⟩

/-- If the server never answers with a raising status nor with a state in
the union of the error and success sets, the polling loop falls off its
end and produces the Python value None, for every fuel and start time. -/
lemma pollLoop_no_terminal (server : Server) (url : String) (task_timeout frequency : ℤ)
    (hs : ∀ t : ℤ, raisesForStatus (server url t).status_code = false ∧
      (TASK_ERROR_STATES ++ TASK_SUCCESS_STATES).contains (server url t).state = false) :
    ∀ (fuel : ℕ) (now : ℤ),
      (pollLoop server url task_timeout frequency fuel now).result = Except.ok none := by
  intro fuel
  induction fuel with
  | zero => intro now; rfl
  | succ n ih =>
    intro now
    simp only [pollLoop]
    split
    · simp only [(hs (now + frequency)).1, (hs (now + frequency)).2, Bool.false_eq_true,
        if_false]
      exact ih (now + frequency)
    · rfl

/-- Whenever the polling loop produces a response, the state of that
response lies in the union of the error and success sets. -/
lemma pollLoop_some_terminal (server : Server) (url : String) (task_timeout frequency : ℤ) :
    ∀ (fuel : ℕ) (now : ℤ) (resp : HttpResponse),
      (pollLoop server url task_timeout frequency fuel now).result = Except.ok (some resp) →
      (TASK_ERROR_STATES ++ TASK_SUCCESS_STATES).contains resp.state = true := by
  intro fuel
  induction fuel with
  | zero =>
    intro now resp h
    simp only [pollLoop] at h
    cases h
  | succ n ih =>
    intro now resp h
    simp only [pollLoop] at h
    split at h
    · split at h
      · simp only at h
        cases h
      · split at h
        next hterm =>
          simp only at h
          cases h
          exact hterm
        next hterm =>
          exact ih (now + frequency) resp h
    · cases h

/-- If the loop condition holds and the next poll neither raises nor is
terminal, the loop records that poll and iterates. -/
lemma pollLoop_step (server : Server) (url : String) (task_timeout frequency : ℤ)
    (fuel : ℕ) (now : ℤ)
    (h1 : now ≤ task_timeout)
    (h2 : raisesForStatus (server url (now + frequency)).status_code = false)
    (h3 : (TASK_ERROR_STATES ++ TASK_SUCCESS_STATES).contains
      (server url (now + frequency)).state = false) :
    pollLoop server url task_timeout frequency (fuel + 1) now =
      ⟨(pollLoop server url task_timeout frequency fuel (now + frequency)).result,
       (pollLoop server url task_timeout frequency fuel (now + frequency)).clock,
       ⟨url, now + frequency⟩ ::
         (pollLoop server url task_timeout frequency fuel (now + frequency)).requests⟩ := by
  simp only [pollLoop, if_pos h1, h2, h3, Bool.false_eq_true, if_false]

/-- If the loop condition holds and the next poll has a terminal,
non-raising response, the loop returns that response at once, having
issued exactly that one request. -/
lemma pollLoop_first_terminal (server : Server) (url : String) (task_timeout frequency : ℤ)
    (fuel : ℕ) (now : ℤ)
    (h1 : now ≤ task_timeout)
    (h2 : raisesForStatus (server url (now + frequency)).status_code = false)
    (h3 : (TASK_ERROR_STATES ++ TASK_SUCCESS_STATES).contains
      (server url (now + frequency)).state = true) :
    pollLoop server url task_timeout frequency (fuel + 1) now =
      ⟨Except.ok (some (server url (now + frequency))), now + frequency,
       [⟨url, now + frequency⟩]⟩ := by
  simp only [pollLoop, if_pos h1, h2, h3, Bool.false_eq_true, if_false, if_true]

/-- If the loop condition holds and the next poll answers with a status in
the raising range, the loop raises HTTPError at once, having issued
exactly that one request. -/
lemma pollLoop_first_raise (server : Server) (url : String) (task_timeout frequency : ℤ)
    (fuel : ℕ) (now : ℤ)
    (h1 : now ≤ task_timeout)
    (h2 : raisesForStatus (server url (now + frequency)).status_code = true) :
    pollLoop server url task_timeout frequency (fuel + 1) now =
      ⟨Except.error (.httpError (server url (now + frequency)).status_code), now + frequency,
       [⟨url, now + frequency⟩]⟩ := by
  simp only [pollLoop, if_pos h1, h2, if_true]

/-- When the orchestrator loop returns a responses list, it has one entry
per input task, and the entry at index i is the value produced by the
per-task wait function on the task at index i, run from some start time. -/
lemma waitTasksAux_ok (cfg : Cfg) (timeout frequency : ℤ) (server : Server) :
    ∀ (tasks : List PyTask) (t0 : ℤ) (rs : List (Option HttpResponse)),
      (waitTasksAux cfg timeout frequency server tasks t0).result = Except.ok rs →
      rs.length = tasks.length ∧
      ∀ (i : ℕ) (hi : i < tasks.length) (hj : i < rs.length),
        ∃ c : ℤ, (wait_for_task (tasks.get ⟨i, hi⟩) cfg timeout frequency server c).result =
          Except.ok (rs.get ⟨i, hj⟩) := by
  intro tasks
  induction tasks with
  | nil =>
    intro t0 rs h
    simp only [waitTasksAux] at h
    cases h
    exact ⟨rfl, fun i hi _ => absurd hi (Nat.not_lt_zero i)⟩
  | cons task rest ih =>
    intro t0 rs h
    simp only [waitTasksAux] at h
    cases ho : (wait_for_task task cfg timeout frequency server t0).result with
    | error e =>
      rw [ho] at h
      simp only at h
      cases h
    | ok r =>
      rw [ho] at h
      simp only at h
      cases hw : (waitTasksAux cfg timeout frequency server rest
          (wait_for_task task cfg timeout frequency server t0).clock).result with
      | error e =>
        rw [hw] at h
        simp only [Except.map] at h
        cases h
      | ok rs2 =>
        rw [hw] at h
        simp only [Except.map] at h
        cases h
        obtain ⟨hlen, hcorr⟩ := ih _ rs2 hw
        refine ⟨by simp [hlen], ?_⟩
        intro i hi hj
        cases i with
        | zero => exact ⟨t0, by simpa using ho⟩
        | succ k =>
          obtain ⟨c, hc⟩ := hcorr k (by simpa using hi) (by simpa using hj)
          exact ⟨c, by simpa using hc⟩

/-- The per-task outcomes recorded by the orchestrator loop: the head is
the outcome of the first task started at the entry clock, and the tail is
empty when that outcome raised, or the record of the remaining tasks
started at the clock where the first poll ended. -/
lemma waitTasksAux_perTask_cons (cfg : Cfg) (timeout frequency : ℤ) (server : Server)
    (task : PyTask) (rest : List PyTask) (t0 : ℤ) :
    (waitTasksAux cfg timeout frequency server (task :: rest) t0).perTask =
      wait_for_task task cfg timeout frequency server t0 ::
        (match (wait_for_task task cfg timeout frequency server t0).result with
         | .error _ => []
         | .ok _ => (waitTasksAux cfg timeout frequency server rest
             (wait_for_task task cfg timeout frequency server t0).clock).perTask) := by
  simp only [waitTasksAux]
  cases (wait_for_task task cfg timeout frequency server t0).result <;> rfl

/-- Every per-task outcome recorded by the orchestrator loop has its
deadline equal to its own start clock plus the timeout; the first task
starts at the entry clock; and each later task starts exactly at the
clock where the previous task ended. -/
lemma waitTasksAux_perTask_chain (cfg : Cfg) (timeout frequency : ℤ) (server : Server) :
    ∀ (tasks : List PyTask) (t0 : ℤ),
      (∀ (i : ℕ) (hi : i < (waitTasksAux cfg timeout frequency server tasks t0).perTask.length),
        ((waitTasksAux cfg timeout frequency server tasks t0).perTask.get ⟨i, hi⟩).task_timeout =
          ((waitTasksAux cfg timeout frequency server tasks t0).perTask.get ⟨i, hi⟩).start
            + timeout) ∧
      (∀ hi : 0 < (waitTasksAux cfg timeout frequency server tasks t0).perTask.length,
        ((waitTasksAux cfg timeout frequency server tasks t0).perTask.get ⟨0, hi⟩).start = t0) ∧
      (∀ (i : ℕ)
         (hi : i + 1 < (waitTasksAux cfg timeout frequency server tasks t0).perTask.length),
        ((waitTasksAux cfg timeout frequency server tasks t0).perTask.get ⟨i + 1, hi⟩).start =
          ((waitTasksAux cfg timeout frequency server tasks t0).perTask.get
            ⟨i, Nat.lt_of_succ_lt hi⟩).clock) := by
  intro tasks
  induction tasks with
  | nil =>
    intro t0
    refine ⟨fun i hi => absurd hi ?_, fun hi => absurd hi ?_, fun i hi => absurd hi ?_⟩ <;>
      simp [waitTasksAux]
  | cons task rest ih =>
    intro t0
    rw [waitTasksAux_perTask_cons]
    cases ho : (wait_for_task task cfg timeout frequency server t0).result with
    | error e =>
      simp only
      refine ⟨?_, ?_, ?_⟩
      · intro i hi
        cases i with
        | zero => rfl
        | succ k =>
          simp only [List.length_cons, List.length_nil] at hi
          omega
      · intro _; rfl
      · intro i hi
        simp only [List.length_cons, List.length_nil] at hi
        omega
    | ok r =>
      simp only
      obtain ⟨ih1, ih2, ih3⟩ :=
        ih (wait_for_task task cfg timeout frequency server t0).clock
      refine ⟨?_, ?_, ?_⟩
      · intro i hi
        cases i with
        | zero => rfl
        | succ k => simpa using ih1 k (by simpa using hi)
      · intro _; rfl
      · intro i hi
        cases i with
        | zero => simpa using ih2 (by simpa using hi)
        | succ k => simpa using ih3 k (by simpa using hi)

/-- The polling loop of api.py and the polling loop of the helper modules
are the same function: their bodies coincide and the state sets of api.py
hold the same values as those of resources/helper.py. -/
lemma api_pollLoop_eq (server : Server) (url : String) (task_timeout frequency : ℤ) :
    ∀ (fuel : ℕ) (now : ℤ),
      Api.pollLoop server url task_timeout frequency fuel now =
        pollLoop server url task_timeout frequency fuel now := by
  intro fuel
  induction fuel with
  | zero => intro now; rfl
  | succ n ih =>
    intro now
    simp only [Api.pollLoop, pollLoop, Api.TASK_ERROR_STATES, Api.TASK_SUCCESS_STATES,
      TASK_ERROR_STATES, TASK_SUCCESS_STATES, ih]

/-- The per-task wait of api.py equals that of the helper modules: the
format call of api.py builds the same URL as the concatenation of the
helper modules. -/
lemma api_wait_for_task_eq (task : PyTask) (cfg : Cfg) (timeout frequency : ℤ)
    (server : Server) (t0 : ℤ) :
    Api.wait_for_task task cfg timeout frequency server t0 =
      wait_for_task task cfg timeout frequency server t0 := by
  simp only [Api.wait_for_task, wait_for_task, Api.POLL_TASK_PATH, TASK_PATH,
    api_pollLoop_eq]

/-- The orchestrator loop of api.py equals that of the helper modules. -/
lemma api_waitTasksAux_eq (cfg : Cfg) (timeout frequency : ℤ) (server : Server) :
    ∀ (tasks : List PyTask) (t0 : ℤ),
      Api.waitTasksAux cfg timeout frequency server tasks t0 =
        waitTasksAux cfg timeout frequency server tasks t0 := by
  intro tasks
  induction tasks with
  | nil => intro t0; rfl
  | cons task rest ih =>
    intro t0
    simp only [Api.waitTasksAux, waitTasksAux, api_wait_for_task_eq, ih]

/-- Claim C1, evaluated at the failing input: against a server that always
reports state running with status 200, with timeout 1 and frequency 1, the
per-task wait function exceeds its deadline without a terminal state and
then neither raises nor produces a distinguishable timed-out value: it
polls twice and falls off the loop with the Python value None.  The source
therefore lacks the explicit timed-out PollResult variant the claim
describes; the spec itself lists this silent fallthrough as the defect to
fix. -/
theorem wait_for_task_timeout_yields_pyNone :
    (wait_for_task demoTask demoCfg 1 1 runningServer 0).result = Except.ok none ∧
    (wait_for_task demoTask demoCfg 1 1 runningServer 0).requests.length = 2 := by
  decide

/-- Claim C2: whenever wait_for_tasks returns a responses list, that list
has exactly one entry per spawned task of the report, and the entry at
index i is the value the per-task wait function produced for the task at
index i, run from some start clock. -/
theorem wait_for_tasks_length_and_order
    (report : ReportJson) (cfg : Cfg) (timeout frequency : ℤ) (server : Server) (t0 : ℤ)
    (rs : List (Option HttpResponse))
    (h : (wait_for_tasks report cfg timeout frequency server t0).result = Except.ok rs) :
    rs.length = report.spawned_tasks.length ∧
    ∀ (i : ℕ) (hi : i < report.spawned_tasks.length) (hj : i < rs.length),
      ∃ c : ℤ,
        (wait_for_task (report.spawned_tasks.get ⟨i, hi⟩) cfg timeout frequency server
          c).result = Except.ok (rs.get ⟨i, hj⟩) := by
  cases hk : report.keys.contains "spawned_tasks" with
  | false =>
    simp only [wait_for_tasks, hk, Bool.false_eq_true, if_false] at h
    cases h
  | true =>
    simp only [wait_for_tasks, hk, if_true] at h
    exact waitTasksAux_ok cfg timeout frequency server report.spawned_tasks t0 rs h

/-- Witness for claim C2 at a concrete two-task report against a server
that reports both tasks finished at the first poll. -/
theorem wait_for_tasks_length_and_order_witness :
    ([some ⟨200, "finished"⟩, some ⟨200, "finished"⟩] : List (Option HttpResponse)).length =
      demoReport.spawned_tasks.length ∧
    ∀ (i : ℕ) (hi : i < demoReport.spawned_tasks.length)
      (hj : i < ([some ⟨200, "finished"⟩, some ⟨200, "finished"⟩] :
        List (Option HttpResponse)).length),
      ∃ c : ℤ,
        (wait_for_task (demoReport.spawned_tasks.get ⟨i, hi⟩) demoCfg 1 1 finServer
          c).result = Except.ok (([some ⟨200, "finished"⟩, some ⟨200, "finished"⟩] :
            List (Option HttpResponse)).get ⟨i, hj⟩) :=
  wait_for_tasks_length_and_order demoReport demoCfg 1 1 finServer 0
    [some ⟨200, "finished"⟩, some ⟨200, "finished"⟩] (by decide)

/-- Counterexample to claim C3: against a server whose state field bogus
lies outside all three state sets, the poller does not fail fast with a
protocol error: with timeout 2 and frequency 1 it keeps polling, three
times in all, and then falls off the loop with the Python value None. -/
theorem malformed_state_keeps_looping :
    TASK_RUNNING_STATES.contains "bogus" = false ∧
    TASK_SUCCESS_STATES.contains "bogus" = false ∧
    TASK_ERROR_STATES.contains "bogus" = false ∧
    (wait_for_task demoTask demoCfg 2 1 bogusServer 0).requests.length = 3 ∧
    (wait_for_task demoTask demoCfg 2 1 bogusServer 0).result = Except.ok none := by
  decide

/-- Claim C3 as amended: a polled state outside the error and success sets
is treated like a running state: when no poll raises and no poll is
terminal, the poller loops until the deadline and produces the Python
value None, signalling no protocol error at any point. -/
theorem unknown_state_treated_as_running
    (task : PyTask) (cfg : Cfg) (timeout frequency : ℤ) (server : Server) (t0 : ℤ)
    (hs : ∀ t : ℤ,
      raisesForStatus
        (server (cfg.base_url ++ (TASK_PATH ++ (task.task_id ++ "/"))) t).status_code
        = false ∧
      (TASK_ERROR_STATES ++ TASK_SUCCESS_STATES).contains
        (server (cfg.base_url ++ (TASK_PATH ++ (task.task_id ++ "/"))) t).state = false) :
    (wait_for_task task cfg timeout frequency server t0).result = Except.ok none := by
  simp only [wait_for_task]
  exact pollLoop_no_terminal server _ (t0 + timeout) frequency hs
    (wait_fuel timeout frequency) t0

/-- Witness for the amended claim C3 at the concrete bogus-state server. -/
theorem unknown_state_treated_as_running_witness :
    (wait_for_task demoTask demoCfg 2 1 bogusServer 0).result = Except.ok none :=
  unknown_state_treated_as_running demoTask demoCfg 2 1 bogusServer 0
    (fun _ => ⟨rfl, rfl⟩)

/-- Counterexample to claim C4: given a report whose JSON object lacks the
error key, a key CALL_REPORT_KEYS requires, wait_for_tasks signals no
protocol error and polling does occur: one GET is issued and the finished
response is returned. -/
theorem missing_error_key_still_polls :
    CALL_REPORT_KEYS.contains "error" = true ∧
    reportMissingErrorKey.keys.contains "error" = false ∧
    (wait_for_tasks reportMissingErrorKey demoCfg 1 1 finServer 0).requests.length = 1 ∧
    (wait_for_tasks reportMissingErrorKey demoCfg 1 1 finServer 0).result =
      Except.ok [some ⟨200, "finished"⟩] := by
  decide

/-- Claim C4 as amended: wait_for_tasks validates no call-report keys.
Any two reports holding the spawned_tasks key and the same task list
behave identically, whatever their other keys, so a report with missing or
extra keys is polled normally; the only key ever consulted is
spawned_tasks, whose absence raises KeyError from the dictionary access,
not a call-report validation. -/
theorem wait_for_tasks_ignores_other_keys
    (r1 r2 : ReportJson) (cfg : Cfg) (timeout frequency : ℤ) (server : Server) (t0 : ℤ)
    (h1 : r1.keys.contains "spawned_tasks" = true)
    (h2 : r2.keys.contains "spawned_tasks" = true)
    (hs : r1.spawned_tasks = r2.spawned_tasks) :
    wait_for_tasks r1 cfg timeout frequency server t0 =
      wait_for_tasks r2 cfg timeout frequency server t0 ∧
    ∀ r3 : ReportJson, r3.keys.contains "spawned_tasks" = false →
      wait_for_tasks r3 cfg timeout frequency server t0 =
        ⟨Except.error (.keyError "spawned_tasks"), t0, [], []⟩ := by
  constructor
  · simp only [wait_for_tasks, h1, h2, if_true, hs]
  · intro r3 h3
    simp only [wait_for_tasks, h3, Bool.false_eq_true, if_false]

/-- Witness for the amended claim C4: the report missing the error key
behaves exactly like the well-formed report with the same task, and the
report without spawned_tasks raises KeyError. -/
theorem wait_for_tasks_ignores_other_keys_witness :
    wait_for_tasks reportMissingErrorKey demoCfg 1 1 finServer 0 =
      wait_for_tasks reportAllKeysOneTask demoCfg 1 1 finServer 0 ∧
    ∀ r3 : ReportJson, r3.keys.contains "spawned_tasks" = false →
      wait_for_tasks r3 demoCfg 1 1 finServer 0 =
        ⟨Except.error (.keyError "spawned_tasks"), 0, [], []⟩ :=
  wait_for_tasks_ignores_other_keys reportMissingErrorKey reportAllKeysOneTask
    demoCfg 1 1 finServer 0 (by decide) (by decide) (by decide)

/-- Claim C5: the three state sets are pairwise disjoint; every response
the poller hands back has its state in the union of the error and success
sets; and a poll whose response does not raise and whose state lies in
that union makes the loop return that very snapshot at once. -/
theorem poller_returns_exactly_terminal :
    (TASK_RUNNING_STATES.all
        (fun s => !((TASK_ERROR_STATES ++ TASK_SUCCESS_STATES).contains s)) = true ∧
      TASK_SUCCESS_STATES.all (fun s => !(TASK_ERROR_STATES.contains s)) = true) ∧
    (∀ (task : PyTask) (cfg : Cfg) (timeout frequency : ℤ) (server : Server) (t0 : ℤ)
       (resp : HttpResponse),
      (wait_for_task task cfg timeout frequency server t0).result = Except.ok (some resp) →
      (TASK_ERROR_STATES ++ TASK_SUCCESS_STATES).contains resp.state = true) ∧
    (∀ (server : Server) (url : String) (task_timeout frequency : ℤ) (fuel : ℕ) (now : ℤ),
      now ≤ task_timeout →
      raisesForStatus (server url (now + frequency)).status_code = false →
      (TASK_ERROR_STATES ++ TASK_SUCCESS_STATES).contains
        (server url (now + frequency)).state = true →
      pollLoop server url task_timeout frequency (fuel + 1) now =
        ⟨Except.ok (some (server url (now + frequency))), now + frequency,
         [⟨url, now + frequency⟩]⟩) := by
  refine ⟨⟨by decide, by decide⟩, ?_, ?_⟩
  · intro task cfg timeout frequency server t0 resp h
    simp only [wait_for_task] at h
    exact pollLoop_some_terminal server _ (t0 + timeout) frequency
      (wait_fuel timeout frequency) t0 resp h
  · intro server url task_timeout frequency fuel now h1 h2 h3
    exact pollLoop_first_terminal server url task_timeout frequency fuel now h1 h2 h3

/-- Witness for claim C5: a first poll answering finished makes the loop
return that snapshot at once, with a single request issued. -/
theorem poller_returns_exactly_terminal_witness :
    pollLoop finServer "u" 1 1 (0 + 1) 0 =
      ⟨Except.ok (some ⟨200, "finished"⟩), 0 + 1, [⟨"u", 0 + 1⟩]⟩ :=
  poller_returns_exactly_terminal.2.2 finServer "u" 1 1 0 0 (by decide) (by decide)
    (by decide)

/-- Claim C6: a report whose spawned_tasks list is empty makes
wait_for_tasks return the empty responses list at once: no GET request is
issued and no time passes. -/
theorem empty_spawned_tasks_no_requests
    (report : ReportJson) (cfg : Cfg) (timeout frequency : ℤ) (server : Server) (t0 : ℤ)
    (hk : report.keys.contains "spawned_tasks" = true)
    (he : report.spawned_tasks = []) :
    wait_for_tasks report cfg timeout frequency server t0 =
      ⟨Except.ok [], t0, [], []⟩ := by
  simp only [wait_for_tasks, hk, if_true, he, waitTasksAux]

/-- Witness for claim C6 at the concrete empty report. -/
theorem empty_spawned_tasks_no_requests_witness :
    wait_for_tasks emptyReport demoCfg 5 1 finServer 0 = ⟨Except.ok [], 0, [], []⟩ :=
  empty_spawned_tasks_no_requests emptyReport demoCfg 5 1 finServer 0 (by decide) rfl

/-- Counterexample to claim C7: status 304 is not a success status, yet a
poll answering 304 with a running body is not propagated as a transport
failure: raise_for_status raises only for the 4xx and 5xx ranges, so the
poller keeps looping and ends with the Python value None. -/
theorem non_2xx_status_not_always_fatal :
    ((notModifiedServer "u" 0).status_code < 200 ∨
      300 ≤ (notModifiedServer "u" 0).status_code) ∧
    raisesForStatus (notModifiedServer "u" 0).status_code = false ∧
    (wait_for_task demoTask demoCfg 1 1 notModifiedServer 0).requests.length = 2 ∧
    (wait_for_task demoTask demoCfg 1 1 notModifiedServer 0).result = Except.ok none := by
  decide

/-- Claim C7 as amended: a poll whose response status lies in the range
raise_for_status treats as an error, the 4xx and 5xx client and server
error ranges, makes the loop raise HTTPError at once: the failure
propagates from any loop entry, the failing poll is the only request it
issues from that point, and at the whole-function level a first poll with
such a status ends the wait with the error after exactly one request. -/
theorem http_error_fatal_not_retried :
    (∀ (server : Server) (url : String) (task_timeout frequency : ℤ) (fuel : ℕ) (now : ℤ),
      now ≤ task_timeout →
      raisesForStatus (server url (now + frequency)).status_code = true →
      pollLoop server url task_timeout frequency (fuel + 1) now =
        ⟨Except.error (.httpError (server url (now + frequency)).status_code),
         now + frequency, [⟨url, now + frequency⟩]⟩) ∧
    (∀ (task : PyTask) (cfg : Cfg) (timeout frequency : ℤ) (server : Server) (t0 : ℤ),
      0 ≤ timeout →
      raisesForStatus
        (server (cfg.base_url ++ (TASK_PATH ++ (task.task_id ++ "/")))
          (t0 + frequency)).status_code = true →
      (wait_for_task task cfg timeout frequency server t0).result =
        Except.error (.httpError
          (server (cfg.base_url ++ (TASK_PATH ++ (task.task_id ++ "/")))
            (t0 + frequency)).status_code) ∧
      (wait_for_task task cfg timeout frequency server t0).requests.length = 1) := by
  constructor
  · intro server url task_timeout frequency fuel now h1 h2
    exact pollLoop_first_raise server url task_timeout frequency fuel now h1 h2
  · intro task cfg timeout frequency server t0 h0 h2
    have h1 : t0 ≤ t0 + timeout := by omega
    simp only [wait_for_task, wait_fuel]
    rw [pollLoop_first_raise server _ (t0 + timeout) frequency
      ((timeout / frequency).toNat) t0 h1 h2]
    exact ⟨rfl, rfl⟩

/-- Witness for the amended claim C7 at a server always answering 500. -/
theorem http_error_fatal_not_retried_witness :
    (wait_for_task demoTask demoCfg 1 1 err500Server 0).result =
      Except.error (.httpError 500) ∧
    (wait_for_task demoTask demoCfg 1 1 err500Server 0).requests.length = 1 :=
  http_error_fatal_not_retried.2 demoTask demoCfg 1 1 err500Server 0 (by decide)
    (by decide)

/-- Claim C8: within one wait_for_tasks call, every per-task wait has its
deadline equal to its own start clock plus the timeout; the first task
starts at the orchestrator entry clock, and each later task starts exactly
at the clock where the previous task finished polling, so each task
receives the full timeout budget regardless of the time earlier tasks
consumed. -/
theorem per_task_deadline_independent
    (report : ReportJson) (cfg : Cfg) (timeout frequency : ℤ) (server : Server) (t0 : ℤ) :
    (∀ (i : ℕ)
       (hi : i < (wait_for_tasks report cfg timeout frequency server t0).perTask.length),
      ((wait_for_tasks report cfg timeout frequency server t0).perTask.get
        ⟨i, hi⟩).task_timeout =
        ((wait_for_tasks report cfg timeout frequency server t0).perTask.get
          ⟨i, hi⟩).start + timeout) ∧
    (∀ hi : 0 < (wait_for_tasks report cfg timeout frequency server t0).perTask.length,
      ((wait_for_tasks report cfg timeout frequency server t0).perTask.get
        ⟨0, hi⟩).start = t0) ∧
    (∀ (i : ℕ)
       (hi : i + 1 < (wait_for_tasks report cfg timeout frequency server t0).perTask.length),
      ((wait_for_tasks report cfg timeout frequency server t0).perTask.get
        ⟨i + 1, hi⟩).start =
        ((wait_for_tasks report cfg timeout frequency server t0).perTask.get
          ⟨i, Nat.lt_of_succ_lt hi⟩).clock) := by
  cases hk : report.keys.contains "spawned_tasks" with
  | false =>
    simp only [wait_for_tasks, hk, Bool.false_eq_true, if_false]
    refine ⟨fun i hi => ?_, fun hi => ?_, fun i hi => ?_⟩ <;>
      simp only [List.length_nil] at hi <;> omega
  | true =>
    have hw : wait_for_tasks report cfg timeout frequency server t0 =
        waitTasksAux cfg timeout frequency server report.spawned_tasks t0 := by
      simp only [wait_for_tasks, hk, if_true]
    rw [hw]
    exact waitTasksAux_perTask_chain cfg timeout frequency server report.spawned_tasks t0

/-- Witness for claim C8 at the concrete two-task report: the second task
has deadline equal to its own start plus the timeout, and it starts where
the first task finished. -/
theorem per_task_deadline_independent_witness :
    ((wait_for_tasks demoReport demoCfg 1 1 finServer 0).perTask.get
      ⟨1, by decide⟩).task_timeout =
      ((wait_for_tasks demoReport demoCfg 1 1 finServer 0).perTask.get
        ⟨1, by decide⟩).start + 1 ∧
    ((wait_for_tasks demoReport demoCfg 1 1 finServer 0).perTask.get
      ⟨0 + 1, by decide⟩).start =
      ((wait_for_tasks demoReport demoCfg 1 1 finServer 0).perTask.get
        ⟨0, by decide⟩).clock :=
  ⟨(per_task_deadline_independent demoReport demoCfg 1 1 finServer 0).1 1 (by decide),
   (per_task_deadline_independent demoReport demoCfg 1 1 finServer 0).2.2 0 (by decide)⟩

/-- Claim C9: the three names pulp_smash/helper.py imports from
pulp_smash.constants are all absent from the set of names constants.py
binds, so resolving its from-import statements raises ImportError at the
first of them and the module fails at load. -/
theorem helper_imports_unresolvable :
    resolve_from_imports constants_module_names helper_constants_imports =
      Except.error "TASK_PATH" ∧
    helper_constants_imports.all
      (fun n => !(constants_module_names.contains n)) = true := by
  decide

/-- Counterexample to claim C10: on a well-formed report with no spawned
tasks, wait_for_tasks of resources/helper.py returns the empty responses
list while Task.wait_for_tasks of api.py returns None, so the two
implementations do not return equal values. -/
theorem api_return_value_differs :
    helper_wait_return emptyReport demoCfg 1 1 finServer 0 =
      Except.ok (.pyList []) ∧
    api_wait_return emptyReport demoCfg 1 1 finServer 0 = Except.ok .pyNone ∧
    helper_wait_return emptyReport demoCfg 1 1 finServer 0 ≠
      api_wait_return emptyReport demoCfg 1 1 finServer 0 := by
  decide

/-- Claim C10 as amended: on every input the two duplicated orchestrators
issue the same requests, take the same time, record the same per-task
outcomes and build the same responses list, and they propagate the same
exceptions; they differ only in the Python value returned, which for the
api.py method is always None because its body lacks a return statement. -/
theorem api_orchestrator_same_polling_distinct_return
    (report : ReportJson) (cfg : Cfg) (timeout frequency : ℤ) (server : Server) (t0 : ℤ) :
    Api.wait_for_tasks report cfg timeout frequency server t0 =
      wait_for_tasks report cfg timeout frequency server t0 ∧
    api_wait_return report cfg timeout frequency server t0 =
      Except.map (fun _ => PyReturn.pyNone)
        (helper_wait_return report cfg timeout frequency server t0) := by
  have hmain : Api.wait_for_tasks report cfg timeout frequency server t0 =
      wait_for_tasks report cfg timeout frequency server t0 := by
    simp only [Api.wait_for_tasks, wait_for_tasks, api_waitTasksAux_eq]
  refine ⟨hmain, ?_⟩
  simp only [api_wait_return, helper_wait_return, hmain]
  cases (wait_for_tasks report cfg timeout frequency server t0).result <;> rfl

end PulpSmash
